import Mathlib

/-
  Verification development for the caddy-geoip2 middleware (src/geoip2.go).

  The Go source is shallowly embedded: the MaxMind database handles become
  finite association lists from an IP-address string to a record, the Caddy
  replacer becomes a record of eight tagged values, and the per-request
  orchestration performLookup becomes a pure function that also reports which
  database slots were queried.  Standard-library boundaries (net.ParseIP,
  net.SplitHostPort) are modelled executably, restricted to the IPv4
  dotted-decimal and non-bracketed host:port forms.
-/

namespace CaddyGeoip2

/-- Embeds CountryRecord (src/geoip2.go lines 19-28): the nested
country/registered_country structs are flattened into three fields. -/
structure CountryRecord where
  countryISOCode : String
  countryIsInEuropeanUnion : Bool
  registeredCountryIsInEuropeanUnion : Bool
deriving DecidableEq

/-- One entry of the subdivisions list of CityRecord (src/geoip2.go line 42-44). -/
structure Subdivision where
  isoCode : String
deriving DecidableEq

/-- Embeds CityRecord (src/geoip2.go lines 32-45).  The Go map from locale to
name is embedded as an association list with unique keys; coordinates are
embedded as rationals since the code only copies them verbatim. -/
structure CityRecord where
  names : List (String × String)
  latitude : Rat
  longitude : Rat
  subdivisions : List Subdivision
deriving DecidableEq

/-- Embeds ASNRecord (src/geoip2.go lines 49-52). -/
structure ASNRecord where
  autonomousSystemNumber : Nat
  autonomousSystemOrganization : String
deriving DecidableEq

/-- Embeds GeoIP2State as consumed by performLookup: one optional database per
slot.  A database is a finite map from IP string to record; a lookup miss
(address not found) models a failed Lookup call. -/
structure GeoIP2State where
  countryDBHandler : Option (List (String × CountryRecord))
  cityDBHandler : Option (List (String × CityRecord))
  globalCityDBHandler : Option (List (String × CityRecord))
  asnDBHandler : Option (List (String × ASNRecord))
deriving DecidableEq

/-- A value stored in the Caddy replacer.  The Go code stores values of
different dynamic types (string, bool, float64, uint64); the tag keeps them
distinguishable exactly as the dynamic type does. -/
inductive Value where
  | str (s : String)
  | bool (b : Bool)
  | num (q : Rat)
  | nat (n : Nat)
deriving DecidableEq

/-- The eight replacer variables set by the middleware (src/geoip2.go
lines 82-91), in the order of the Var constants. -/
structure Vars where
  city : Value
  countryCode : Value
  latitude : Value
  longitude : Value
  subdivisions : Value
  isInEU : Value
  asn : Value
  asOrg : Value
deriving DecidableEq

/-- Embeds initializeVariables (src/geoip2.go lines 129-138): every variable
starts as the empty string. -/
def initialVars : Vars :=
  ⟨Value.str "", Value.str "", Value.str "", Value.str "",
   Value.str "", Value.str "", Value.str "", Value.str ""⟩

/-- Which database slots were queried while serving one request; instrumentation
of the embedding, recording each call into a database handle. -/
structure QueryLog where
  country : Bool
  regionCity : Bool
  globalCity : Bool
  asn : Bool
deriving DecidableEq

/-- The query log of a request that touched no database slot. -/
def noQueries : QueryLog := ⟨false, false, false, false⟩

/-- Embeds the http.Request data getClientIP consumes: RemoteAddr, the
X-Forwarded-For header value (empty string when absent), and Caddy's
trusted-proxy flag for the connection. -/
structure Request where
  remoteAddr : String
  xForwardedFor : String
  trustedProxy : Bool
deriving DecidableEq

/-- Embeds IpSafeLevel (src/geoip2.go lines 74-78). -/
inductive IpSafeLevel where
  | Wild
  | TrustedProxies
  | Strict
deriving DecidableEq

/-- Embeds isEnabled (src/geoip2.go lines 141-143): case-sensitive comparison
against the three disable strings. -/
def isEnabled (enable : String) : Bool :=
  enable != "off" && enable != "false" && enable != "0"

/-- ASCII lowering of one character; part of the model of the stdlib boundary
strings.ToLower (the mode strings the code compares against are ASCII). -/
def lowerChar (c : Char) : Char :=
  if 'A' ≤ c ∧ c ≤ 'Z' then Char.ofNat (c.toNat + 32) else c

/-- Model of the standard-library boundary strings.ToLower (not repository
code), restricted to ASCII case folding. -/
def lowerString (s : String) : String :=
  ⟨s.data.map lowerChar⟩

/-- Embeds getSafetyLevel (src/geoip2.go lines 318-327): lowercases the mode,
defaulting to TrustedProxies. -/
def getSafetyLevel (enable : String) : IpSafeLevel :=
  match lowerString enable with
  | "strict" => IpSafeLevel.Strict
  | "wild" => IpSafeLevel.Wild
  | _ => IpSafeLevel.TrustedProxies

/-- Embeds the list of valid modes checked by Validate (src/geoip2.go line 371). -/
def validModes : List String :=
  ["strict", "wild", "trusted_proxies", "off", "false", "0", ""]

/-- Embeds Validate (src/geoip2.go lines 367-380): true means Validate returns
nil, false means it returns the invalid-mode error. -/
def validate (enable : String) : Bool :=
  validModes.contains (lowerString enable)

/-- Split a character list at every occurrence of a separator character;
model of strings/net splitting over the string's character data (semantics of
Go strings.Split with a one-character separator). -/
def splitOnChar (sep : Char) : List Char → List (List Char)
  | [] => [[]]
  | c :: rest =>
    let r := splitOnChar sep rest
    if c = sep then [] :: r
    else
      match r with
      | [] => [[c]]
      | g :: gs => (c :: g) :: gs

/-- One dotted-decimal field of an IPv4 address: one to three digits, no
leading zero, value at most 255.  Part of the model of the stdlib boundary. -/
def parseIPv4Field (f : List Char) : Option Nat :=
  if f.length = 0 ∨ 3 < f.length then none
  else if ¬ (f.all Char.isDigit) then none
  else if 1 < f.length ∧ f.headD ' ' = '0' then none
  else
    let n := f.foldl (fun acc c => acc * 10 + (c.toNat - 48)) 0
    if n ≤ 255 then some n else none

/-- Model of the standard-library boundary net.ParseIP (not repository code),
restricted to IPv4 dotted-decimal: four valid fields separated by dots.
Anything else, including the empty string, is rejected (none). -/
def parseIP (s : String) : Option String :=
  let fields := splitOnChar '.' s.data
  if fields.length = 4 ∧ fields.all (fun f => (parseIPv4Field f).isSome) then
    some s
  else
    none

/-- Outcome of the standard-library boundary net.SplitHostPort as getClientIP
distinguishes it: a host, the missing-port error (handled by falling back to
the whole RemoteAddr), or any other error (propagated). -/
inductive HostPortResult where
  | ok (host : String)
  | missingPort
  | otherErr
deriving DecidableEq

/-- Model of net.SplitHostPort (standard-library boundary, not repository
code), restricted to non-bracketed addresses: no colon is the missing-port
error, exactly one colon splits host from port, more colons are an error. -/
def splitHostPort (s : String) : HostPortResult :=
  match splitOnChar ':' s.data with
  | [_] => HostPortResult.missingPort
  | [host, _] => HostPortResult.ok ⟨host⟩
  | _ => HostPortResult.otherErr

/-- The first element of strings.Split(s, ", "): the characters before the
first occurrence of the two-character separator. -/
def takeUntilCommaSpace : List Char → List Char
  | [] => []
  | ',' :: ' ' :: _ => []
  | c :: rest => c :: takeUntilCommaSpace rest

/-- Model of the standard-library boundary strings.TrimSpace (not repository
code): drop whitespace from both ends. -/
def trimChars (l : List Char) : List Char :=
  ((l.dropWhile Char.isWhitespace).reverse.dropWhile Char.isWhitespace).reverse

/-- Embeds getClientIP (src/geoip2.go lines 276-315): picks the IP string from
X-Forwarded-For or RemoteAddr according to the safety level, then parses it;
none embeds an error return. -/
def getClientIP (enable : String) (r : Request) : Option String :=
  let safeLevel := getSafetyLevel enable
  let forwardedFor := r.xForwardedFor
  let ipStr? : Option String :=
    if ((safeLevel = IpSafeLevel.TrustedProxies ∧ r.trustedProxy = true)
          ∨ safeLevel = IpSafeLevel.Wild) ∧ forwardedFor ≠ "" then
      some ⟨trimChars (takeUntilCommaSpace forwardedFor.data)⟩
    else
      match splitHostPort r.remoteAddr with
      | HostPortResult.ok host => some host
      | HostPortResult.missingPort => some r.remoteAddr
      | HostPortResult.otherErr => none
  match ipStr? with
  | none => none
  | some ipStr => parseIP ipStr

/-- Result of the country block of performLookup (src/geoip2.go lines 164-177):
the country code, the EU flag, and whether the Country slot was queried. -/
structure CountryOutcome where
  countryCode : String
  isInEU : Bool
  queried : Bool
deriving DecidableEq

/-- Embeds the country block of performLookup (src/geoip2.go lines 164-177):
with no Country handler, or on lookup failure, the code stays empty and the EU
flag stays false; on success the EU flag is the disjunction of the country and
registered-country flags. -/
def countryLookup (st : GeoIP2State) (ip : String) : CountryOutcome :=
  match st.countryDBHandler with
  | none => ⟨"", false, false⟩
  | some db =>
    match List.lookup ip db with
    | none => ⟨"", false, true⟩
    | some rec =>
      ⟨rec.countryISOCode,
       rec.countryIsInEuropeanUnion || rec.registeredCountryIsInEuropeanUnion,
       true⟩

/-- The two alternative city slots of the routing policy. -/
inductive CitySlot where
  | regionCity
  | globalCity
deriving DecidableEq

/-- Embeds the city-database choice of performLookup (src/geoip2.go
lines 186-197): the Europe city database when the EU flag is set and that
handler is bound, otherwise the global city database when bound, otherwise
no city lookup. -/
def chooseCityLookup (st : GeoIP2State) (isInEU : Bool) : Option CitySlot :=
  if isInEU && st.cityDBHandler.isSome then some CitySlot.regionCity
  else if st.globalCityDBHandler.isSome then some CitySlot.globalCity
  else none

/-- Embeds firstNonEmptyName: the range loop over the names map (src/geoip2.go
lines 214-219) taking the first non-empty name in enumeration order. -/
def firstNonEmptyName : List (String × String) → String
  | [] => ""
  | (_, n) :: rest => if n ≠ "" then n else firstNonEmptyName rest

/-- The Go map access Names[loc]: the bound name, or the empty string when the
locale is absent (the code always pairs the access with a non-empty check, so
absent and empty coincide). -/
def nameAt (loc : String) (names : List (String × String)) : String :=
  (List.lookup loc names).getD ""

/-- Embeds the city-name selection of performLookup (src/geoip2.go
lines 208-220): the "de" name when present and non-empty, else the "en" name
when present and non-empty, else the first non-empty name in enumeration
order. -/
def selectCityName (names : List (String × String)) : String :=
  if nameAt "de" names ≠ "" then nameAt "de" names
  else if nameAt "en" names ≠ "" then nameAt "en" names
  else firstNonEmptyName names

/-- The four city-derived fields extracted from a successful city lookup. -/
structure CityFields where
  cityName : String
  latitude : Rat
  longitude : Rat
  subdivision : String
deriving DecidableEq

/-- Embeds the extraction block of performLookup (src/geoip2.go lines 206-229):
city name by preference order, coordinates verbatim, and the first
subdivision's code when the list is non-empty and that code is non-empty. -/
def extractCityFields (rec : CityRecord) : CityFields :=
  ⟨selectCityName rec.names,
   rec.latitude,
   rec.longitude,
   match rec.subdivisions with
   | [] => ""
   | s :: _ => if s.isoCode ≠ "" then s.isoCode else ""⟩

/-- Result of the city block of performLookup: the four city-derived fields
(Go zero values when no lookup happened or it failed) plus which of the two
city slots was queried. -/
structure CityOutcome where
  cityName : String
  latitude : Rat
  longitude : Rat
  subdivision : String
  queriedRegion : Bool
  queriedGlobal : Bool
deriving DecidableEq

/-- Embeds the city block of performLookup (src/geoip2.go lines 180-237):
choose at most one city slot, query it, and extract the city fields on
success; on failure or with no slot chosen all four fields keep their Go
zero values. -/
def cityLookup (st : GeoIP2State) (isInEU : Bool) (ip : String) : CityOutcome :=
  match chooseCityLookup st isInEU with
  | none => ⟨"", 0, 0, "", false, false⟩
  | some CitySlot.regionCity =>
    match List.lookup ip (st.cityDBHandler.getD []) with
    | none => ⟨"", 0, 0, "", true, false⟩
    | some rec =>
      let f := extractCityFields rec
      ⟨f.cityName, f.latitude, f.longitude, f.subdivision, true, false⟩
  | some CitySlot.globalCity =>
    match List.lookup ip (st.globalCityDBHandler.getD []) with
    | none => ⟨"", 0, 0, "", false, true⟩
    | some rec =>
      let f := extractCityFields rec
      ⟨f.cityName, f.latitude, f.longitude, f.subdivision, false, true⟩

/-- Result of the ASN block of performLookup (src/geoip2.go lines 240-252). -/
structure ASNOutcome where
  asn : Nat
  asOrg : String
  queried : Bool
deriving DecidableEq

/-- Embeds the ASN block of performLookup (src/geoip2.go lines 240-252): query
the ASN handler when bound; on failure or with no handler the number stays 0
and the organization stays empty. -/
def asnLookup (st : GeoIP2State) (ip : String) : ASNOutcome :=
  match st.asnDBHandler with
  | none => ⟨0, "", false⟩
  | some db =>
    match List.lookup ip db with
    | none => ⟨0, "", true⟩
    | some rec => ⟨rec.autonomousSystemNumber, rec.autonomousSystemOrganization, true⟩

/-- The body of performLookup after a client IP has been obtained
(src/geoip2.go lines 163-262): country block, EU-routed city block, ASN block,
then all eight variables are set from the combined results. -/
def lookupCore (st : GeoIP2State) (ip : String) : Vars × QueryLog :=
  let c := countryLookup st ip
  let city := cityLookup st c.isInEU ip
  let a := asnLookup st ip
  (⟨Value.str city.cityName, Value.str c.countryCode,
    Value.num city.latitude, Value.num city.longitude,
    Value.str city.subdivision, Value.bool c.isInEU,
    Value.nat a.asn, Value.str a.asOrg⟩,
   ⟨c.queried, city.queriedRegion, city.queriedGlobal, a.queried⟩)

/-- Embeds performLookup (src/geoip2.go lines 148-272): with no state or on a
client-IP error it returns early, leaving the replacer variables as given and
querying no slot; otherwise it runs the three lookup blocks and overwrites all
eight variables. -/
def performLookup (state : Option GeoIP2State) (enable : String) (r : Request)
    (vars : Vars) : Vars × QueryLog :=
  match state with
  | none => (vars, noQueries)
  | some st =>
    match getClientIP enable r with
    | none => (vars, noQueries)
    | some ip => lookupCore st ip

/-- Embeds ServeHTTP (src/geoip2.go lines 109-125) restricted to the variable
setting: initialize all eight variables to the empty string, then run
performLookup exactly when isEnabled holds. -/
def serveHTTP (state : Option GeoIP2State) (enable : String) (r : Request) :
    Vars × QueryLog :=
  if isEnabled enable then performLookup state enable r initialVars
  else (initialVars, noQueries)

/-- Modelled from the spec: a DatabaseFile of the state manager (the state
manager source, e.g. its Load/Reload/Status code, is not under src/); spec
section 3 lists path, declared kind and build timestamp as its attributes. -/
structure DatabaseFile where
  path : String
  dbKind : String
  buildTime : Nat
deriving DecidableEq

/-- Modelled from the spec: the DatabaseSet of the state manager, one optional
DatabaseFile per slot (spec sections 2 and 3). -/
structure DatabaseSet where
  country : Option DatabaseFile
  regionCity : Option DatabaseFile
  globalCity : Option DatabaseFile
  network : Option DatabaseFile
deriving DecidableEq

/-- Modelled from the spec: the outcome of validating and opening a fresh file
per configured slot during Load; none records that the slot's open failed or
the slot is not configured (spec section 4.1). -/
structure OpenResults where
  country : Option DatabaseFile
  regionCity : Option DatabaseFile
  globalCity : Option DatabaseFile
  network : Option DatabaseFile
deriving DecidableEq

/-- Modelled from the spec: Load (spec section 4.1) over already-attempted
opens: failure of the mandatory Country slot is fatal and yields an error;
optional slots are installed best-effort (an empty slot is left nil). -/
def load (opened : OpenResults) : Except String DatabaseSet :=
  match opened.country with
  | none => Except.error "failed to open mandatory country database"
  | some c => Except.ok ⟨some c, opened.regionCity, opened.globalCity, opened.network⟩

/-- Modelled from the spec: Reload (spec sections 4.2 and 8) — a failed Load
leaves the currently-serving DatabaseSet unchanged; a successful Load installs
the new set. -/
def reload (old : DatabaseSet) (opened : OpenResults) : DatabaseSet :=
  match load opened with
  | Except.error _ => old
  | Except.ok newSet => newSet

/-- Modelled from the spec: the per-slot part of Status (spec section 6) —
whether a database is bound, its declared kind and its build timestamp. -/
structure SlotStatus where
  bound : Bool
  dbKind : String
  buildTime : Nat
deriving DecidableEq

/-- Modelled from the spec: Status of one slot. -/
def slotStatus : Option DatabaseFile → SlotStatus
  | none => ⟨false, "", 0⟩
  | some f => ⟨true, f.dbKind, f.buildTime⟩

/-- Modelled from the spec: Status reports the per-slot status of all four
slots (spec section 6). -/
def status (s : DatabaseSet) : SlotStatus × SlotStatus × SlotStatus × SlotStatus :=
  (slotStatus s.country, slotStatus s.regionCity,
   slotStatus s.globalCity, slotStatus s.network)

theorem lookup_snd_mem {α β : Type} [BEq α] (a : α) (l : List (α × β)) (b : β)
    (h : List.lookup a l = some b) : ∃ p ∈ l, p.2 = b := by
  induction l with
  | nil => simp [List.lookup] at h
  | cons hd tl ih =>
    obtain ⟨k, v⟩ := hd
    simp only [List.lookup] at h
    cases hab : (a == k) with
    | true =>
      rw [hab] at h
      simp at h
      exact ⟨(k, v), by simp, h⟩
    | false =>
      rw [hab] at h
      simp at h
      obtain ⟨p, hp, hpb⟩ := ih h
      exact ⟨p, by simp [hp], hpb⟩

theorem performLookup_eq_core (st : GeoIP2State) (enable : String) (r : Request)
    (vars : Vars) (ip : String) (hip : getClientIP enable r = some ip) :
    performLookup (some st) enable r vars = lookupCore st ip := by
  simp [performLookup, hip]

theorem countryLookup_congr (st₁ st₂ : GeoIP2State) (ip : String)
    (h : st₁.countryDBHandler = st₂.countryDBHandler) :
    countryLookup st₁ ip = countryLookup st₂ ip := by
  unfold countryLookup
  rw [h]

theorem countryLookup_queried (st : GeoIP2State) (ip : String) :
    (countryLookup st ip).queried = st.countryDBHandler.isSome := by
  unfold countryLookup
  cases st.countryDBHandler with
  | none => simp
  | some db => cases h : List.lookup ip db <;> simp [h]

theorem asnLookup_congr (st₁ st₂ : GeoIP2State) (ip : String)
    (h : st₁.asnDBHandler = st₂.asnDBHandler) :
    asnLookup st₁ ip = asnLookup st₂ ip := by
  unfold asnLookup
  rw [h]

theorem asnLookup_queried (st : GeoIP2State) (ip : String) :
    (asnLookup st ip).queried = st.asnDBHandler.isSome := by
  unfold asnLookup
  cases st.asnDBHandler with
  | none => simp
  | some db => cases h : List.lookup ip db <;> simp [h]

theorem cityLookup_queriedRegion (st : GeoIP2State) (b : Bool) (ip : String) :
    (cityLookup st b ip).queriedRegion = (b && st.cityDBHandler.isSome) := by
  unfold cityLookup chooseCityLookup
  cases h1 : (b && st.cityDBHandler.isSome) with
  | true =>
    simp only [h1, if_true]
    cases h3 : List.lookup ip (st.cityDBHandler.getD []) <;> simp [h3]
  | false =>
    simp only [h1, Bool.false_eq_true, if_false]
    cases h2 : st.globalCityDBHandler.isSome with
    | true =>
      simp only [h2, if_true]
      cases h3 : List.lookup ip (st.globalCityDBHandler.getD []) <;> simp [h3]
    | false => simp [h2]

theorem cityLookup_queriedGlobal (st : GeoIP2State) (b : Bool) (ip : String) :
    (cityLookup st b ip).queriedGlobal
      = (!(b && st.cityDBHandler.isSome) && st.globalCityDBHandler.isSome) := by
  unfold cityLookup chooseCityLookup
  cases h1 : (b && st.cityDBHandler.isSome) with
  | true =>
    simp only [h1, if_true]
    cases h3 : List.lookup ip (st.cityDBHandler.getD []) <;> simp [h3]
  | false =>
    simp only [h1, Bool.false_eq_true, if_false]
    cases h2 : st.globalCityDBHandler.isSome with
    | true =>
      simp only [h2, if_true]
      cases h3 : List.lookup ip (st.globalCityDBHandler.getD []) <;> simp [h3]
    | false => simp [h2]

theorem cityLookup_none (st : GeoIP2State) (b : Bool) (ip : String)
    (h1 : (b && st.cityDBHandler.isSome) = false)
    (h2 : st.globalCityDBHandler.isSome = false) :
    cityLookup st b ip = ⟨"", 0, 0, "", false, false⟩ := by
  unfold cityLookup chooseCityLookup
  simp [h1, h2]

theorem nameAt_all_empty (loc : String) (names : List (String × String))
    (h : ∀ p ∈ names, p.2 = "") : nameAt loc names = "" := by
  unfold nameAt
  cases hl : List.lookup loc names with
  | none => rfl
  | some v =>
    obtain ⟨p, hp, hpv⟩ := lookup_snd_mem loc names v hl
    have hv : v = "" := by rw [← hpv]; exact h p hp
    simp [hv]

theorem firstNonEmptyName_all_empty (names : List (String × String))
    (h : ∀ p ∈ names, p.2 = "") : firstNonEmptyName names = "" := by
  induction names with
  | nil => rfl
  | cons hd tl ih =>
    obtain ⟨k, v⟩ := hd
    have hv : v = "" := h (k, v) (by simp)
    simp only [firstNonEmptyName, hv]
    simp
    exact ih (fun p hp => h p (by simp [hp]))

theorem cityLookup_not_both (st : GeoIP2State) (b : Bool) (ip : String) :
    ¬((cityLookup st b ip).queriedRegion = true ∧ (cityLookup st b ip).queriedGlobal = true) := by
  rw [cityLookup_queriedRegion, cityLookup_queriedGlobal]
  intro ⟨h1, h2⟩
  rw [h1] at h2
  simp at h2

theorem cityLookup_zero_fields (st : GeoIP2State) (b : Bool) (ip : String)
    (hR : (cityLookup st b ip).queriedRegion = false)
    (hG : (cityLookup st b ip).queriedGlobal = false) :
    cityLookup st b ip = ⟨"", 0, 0, "", false, false⟩ := by
  rw [cityLookup_queriedRegion] at hR
  rw [cityLookup_queriedGlobal, hR] at hG
  simp at hG
  exact cityLookup_none st b ip hR (by simp [hG])

/-- C1: exactly one of the two city slots is queried per request: RegionCity
exactly when the EU flag is true and that slot is bound, otherwise GlobalCity
when bound regardless of EU status; with neither, all city-derived fields stay
absent; an unavailable or failing Country slot routes to GlobalCity. -/
theorem c1_city_slot_routing (st : GeoIP2State) (enable : String) (r : Request)
    (vars : Vars) (ip : String) (hip : getClientIP enable r = some ip) :
    ((performLookup (some st) enable r vars).2.regionCity
        = ((countryLookup st ip).isInEU && st.cityDBHandler.isSome))
    ∧ ((performLookup (some st) enable r vars).2.globalCity
        = (!((countryLookup st ip).isInEU && st.cityDBHandler.isSome)
            && st.globalCityDBHandler.isSome))
    ∧ ¬((performLookup (some st) enable r vars).2.regionCity = true
        ∧ (performLookup (some st) enable r vars).2.globalCity = true)
    ∧ ((performLookup (some st) enable r vars).2.regionCity = false →
       (performLookup (some st) enable r vars).2.globalCity = false →
       (performLookup (some st) enable r vars).1.city = Value.str ""
       ∧ (performLookup (some st) enable r vars).1.latitude = Value.num 0
       ∧ (performLookup (some st) enable r vars).1.longitude = Value.num 0
       ∧ (performLookup (some st) enable r vars).1.subdivisions = Value.str "")
    ∧ (st.countryDBHandler = none →
        (performLookup (some st) enable r vars).2.globalCity
          = st.globalCityDBHandler.isSome)
    ∧ (∀ db : List (String × CountryRecord), st.countryDBHandler = some db →
        List.lookup ip db = none →
        (performLookup (some st) enable r vars).2.globalCity
          = st.globalCityDBHandler.isSome) := by
  rw [performLookup_eq_core st enable r vars ip hip]
  refine ⟨?_, ?_, ?_, ?_, ?_, ?_⟩
  · exact cityLookup_queriedRegion st _ ip
  · exact cityLookup_queriedGlobal st _ ip
  · exact cityLookup_not_both st _ ip
  · intro hR hG
    have hz := cityLookup_zero_fields st (countryLookup st ip).isInEU ip hR hG
    show Value.str (cityLookup st (countryLookup st ip).isInEU ip).cityName = Value.str ""
      ∧ Value.num (cityLookup st (countryLookup st ip).isInEU ip).latitude = Value.num 0
      ∧ Value.num (cityLookup st (countryLookup st ip).isInEU ip).longitude = Value.num 0
      ∧ Value.str (cityLookup st (countryLookup st ip).isInEU ip).subdivision = Value.str ""
    rw [hz]
    exact ⟨rfl, rfl, rfl, rfl⟩
  · intro hnone
    have hc : countryLookup st ip = ⟨"", false, false⟩ := by
      unfold countryLookup; rw [hnone]
    show (cityLookup st (countryLookup st ip).isInEU ip).queriedGlobal = _
    rw [cityLookup_queriedGlobal, hc]
    simp
  · intro db hdb hmiss
    have hc : countryLookup st ip = ⟨"", false, true⟩ := by
      unfold countryLookup; rw [hdb]; simp [hmiss]
    show (cityLookup st (countryLookup st ip).isInEU ip).queriedGlobal = _
    rw [cityLookup_queriedGlobal, hc]
    simp

/-- C2: the EU flag from a successful Country lookup is the disjunction of the
country and registered-country is-in-European-Union flags. -/
theorem c2_eu_flag_disjunction (st : GeoIP2State) (enable : String) (r : Request)
    (vars : Vars) (ip : String) (db : List (String × CountryRecord)) (rec : CountryRecord)
    (hip : getClientIP enable r = some ip)
    (hdb : st.countryDBHandler = some db)
    (hfound : List.lookup ip db = some rec) :
    (performLookup (some st) enable r vars).1.isInEU
      = Value.bool (rec.countryIsInEuropeanUnion || rec.registeredCountryIsInEuropeanUnion)
    ∧ ((rec.countryIsInEuropeanUnion || rec.registeredCountryIsInEuropeanUnion) = true
        ↔ (rec.countryIsInEuropeanUnion = true ∨ rec.registeredCountryIsInEuropeanUnion = true)) := by
  rw [performLookup_eq_core st enable r vars ip hip]
  constructor
  · show Value.bool (countryLookup st ip).isInEU = _
    unfold countryLookup
    rw [hdb]
    simp [hfound]
  · simp

/-- C3: city-name selection prefers the non-empty "de" name, then the
non-empty "en" name, then the first non-empty name in enumeration order, and
stays absent when every candidate is empty; the extraction from a city record
uses exactly this selection. -/
theorem c3_city_name_preference (names : List (String × String)) :
    (nameAt "de" names ≠ "" → selectCityName names = nameAt "de" names)
    ∧ (nameAt "de" names = "" → nameAt "en" names ≠ "" →
        selectCityName names = nameAt "en" names)
    ∧ (nameAt "de" names = "" → nameAt "en" names = "" →
        selectCityName names = firstNonEmptyName names)
    ∧ ((∀ p ∈ names, p.2 = "") → selectCityName names = "")
    ∧ (∀ rec : CityRecord, (extractCityFields rec).cityName = selectCityName rec.names) := by
  refine ⟨?_, ?_, ?_, ?_, fun rec => rfl⟩
  · intro h
    unfold selectCityName
    rw [if_pos h]
  · intro h1 h2
    unfold selectCityName
    rw [if_neg (by simp [h1]), if_pos h2]
  · intro h1 h2
    unfold selectCityName
    rw [if_neg (by simp [h1]), if_neg (by simp [h2])]
  · intro hall
    unfold selectCityName
    rw [if_neg (by simp [nameAt_all_empty "de" names hall]),
        if_neg (by simp [nameAt_all_empty "en" names hall])]
    exact firstNonEmptyName_all_empty names hall

/-- C4: when the client address is malformed (IP parsing fails), performLookup
leaves every variable as given and queries no database slot, and the whole
request yields the all-absent record of eight empty-string defaults. -/
theorem c4_malformed_address (st : GeoIP2State) (enable : String) (r : Request)
    (vars : Vars) (hbad : getClientIP enable r = none) :
    performLookup (some st) enable r vars = (vars, noQueries)
    ∧ serveHTTP (some st) enable r = (initialVars, noQueries) := by
  have hp : ∀ v : Vars, performLookup (some st) enable r v = (v, noQueries) := by
    intro v
    simp [performLookup, hbad]
  refine ⟨hp vars, ?_⟩
  unfold serveHTTP
  by_cases he : isEnabled enable = true
  · rw [if_pos he]
    exact hp initialVars
  · rw [if_neg he]

/-- C5 counterexample: a failed Country lookup (address not in the database)
and a successful lookup returning a non-EU record with an empty ISO code
produce identical output records, so absence of the EU flag is not
distinguishable from a present false value. -/
theorem c5_counterexample :
    List.lookup "1.2.3.4" ([] : List (String × CountryRecord)) = none
    ∧ List.lookup "1.2.3.4"
        [("1.2.3.4", (⟨"", false, false⟩ : CountryRecord))]
        = some (⟨"", false, false⟩ : CountryRecord)
    ∧ performLookup (some ⟨some [], none, none, none⟩) "strict"
        ⟨"1.2.3.4:80", "", false⟩ initialVars
      = performLookup (some ⟨some [("1.2.3.4", ⟨"", false, false⟩)], none, none, none⟩)
          "strict" ⟨"1.2.3.4:80", "", false⟩ initialVars
    ∧ (performLookup (some ⟨some [], none, none, none⟩) "strict"
        ⟨"1.2.3.4:80", "", false⟩ initialVars).1.isInEU = Value.bool false := by
  decide

/-- C5 as amended: the lookup always returns a record and per-request errors
never escape; for the string-valued fields absence is the empty string, and
skipping the whole lookup keeps the distinguishable string defaults, but a
failed Country lookup sets the EU flag to the present boolean false. -/
theorem c5_absence_representation (st : GeoIP2State) (enable : String) (r : Request)
    (vars : Vars) (ip : String) (db : List (String × CountryRecord))
    (hip : getClientIP enable r = some ip)
    (hdb : st.countryDBHandler = some db)
    (hmiss : List.lookup ip db = none) :
    (performLookup (some st) enable r vars).1.isInEU = Value.bool false
    ∧ (performLookup (some st) enable r vars).1.countryCode = Value.str ""
    ∧ Value.str "" ≠ Value.bool false
    ∧ performLookup none enable r vars = (vars, noQueries) := by
  rw [performLookup_eq_core st enable r vars ip hip]
  have hc : countryLookup st ip = ⟨"", false, true⟩ := by
    unfold countryLookup; rw [hdb]; simp [hmiss]
  refine ⟨?_, ?_, by simp, rfl⟩
  · show Value.bool (countryLookup st ip).isInEU = _
    rw [hc]
  · show Value.str (countryLookup st ip).countryCode = _
    rw [hc]

/-- C6: the ASN slot is queried exactly when it is bound, unconditionally on
the EU flag and the Country and city outcomes; each slot's outcome degrades
only the fields sourced from that slot: the ASN fields depend only on the ASN
slot and the country fields only on the Country slot. -/
theorem c6_asn_unconditional (st st₁ st₂ : GeoIP2State) (enable : String)
    (r : Request) (vars : Vars) (ip : String)
    (hip : getClientIP enable r = some ip) :
    ((performLookup (some st) enable r vars).2.asn = st.asnDBHandler.isSome)
    ∧ ((performLookup (some st) enable r vars).2.country = st.countryDBHandler.isSome)
    ∧ (st₁.asnDBHandler = st₂.asnDBHandler →
        (performLookup (some st₁) enable r vars).1.asn
          = (performLookup (some st₂) enable r vars).1.asn
        ∧ (performLookup (some st₁) enable r vars).1.asOrg
          = (performLookup (some st₂) enable r vars).1.asOrg)
    ∧ (st₁.countryDBHandler = st₂.countryDBHandler →
        (performLookup (some st₁) enable r vars).1.countryCode
          = (performLookup (some st₂) enable r vars).1.countryCode
        ∧ (performLookup (some st₁) enable r vars).1.isInEU
          = (performLookup (some st₂) enable r vars).1.isInEU) := by
  rw [performLookup_eq_core st enable r vars ip hip,
      performLookup_eq_core st₁ enable r vars ip hip,
      performLookup_eq_core st₂ enable r vars ip hip]
  refine ⟨asnLookup_queried st ip, countryLookup_queried st ip, ?_, ?_⟩
  · intro h
    have ha := asnLookup_congr st₁ st₂ ip h
    constructor
    · show Value.nat (asnLookup st₁ ip).asn = Value.nat (asnLookup st₂ ip).asn
      rw [ha]
    · show Value.str (asnLookup st₁ ip).asOrg = Value.str (asnLookup st₂ ip).asOrg
      rw [ha]
  · intro h
    have hc := countryLookup_congr st₁ st₂ ip h
    constructor
    · show Value.str (countryLookup st₁ ip).countryCode
        = Value.str (countryLookup st₂ ip).countryCode
      rw [hc]
    · show Value.bool (countryLookup st₁ ip).isInEU
        = Value.bool (countryLookup st₂ ip).isInEU
      rw [hc]

/-- C7: from a successful city lookup, the reported subdivision code is the
first of the source list even when more are present, and it stays absent when
the list is empty. -/
theorem c7_first_subdivision (rec : CityRecord) :
    (rec.subdivisions = [] → (extractCityFields rec).subdivision = "")
    ∧ (∀ (s : Subdivision) (rest : List Subdivision), rec.subdivisions = s :: rest →
        (extractCityFields rec).subdivision = s.isoCode)
    ∧ (∀ (st : GeoIP2State) (b : Bool) (ip : String) (cityRec : CityRecord),
        chooseCityLookup st b = some CitySlot.regionCity →
        List.lookup ip (st.cityDBHandler.getD []) = some cityRec →
        (cityLookup st b ip).subdivision = (extractCityFields cityRec).subdivision) := by
  refine ⟨?_, ?_, ?_⟩
  · intro h
    unfold extractCityFields
    simp [h]
  · intro s rest h
    unfold extractCityFields
    simp only [h]
    by_cases hs : s.isoCode = ""
    · simp [hs]
    · simp [hs]
  · intro st b ip cityRec hchoose hfound
    unfold cityLookup
    rw [hchoose]
    simp [hfound]

/-- C8: a Load whose mandatory Country slot fails to open returns an error,
and the Reload built on it leaves the DatabaseSet, and hence Status and every
subsequent Lookup over the set, exactly as before the attempt. -/
theorem c8_failed_reload_unchanged (old : DatabaseSet) (opened : OpenResults)
    (hfail : opened.country = none) :
    load opened = Except.error "failed to open mandatory country database"
    ∧ reload old opened = old
    ∧ status (reload old opened) = status old := by
  have hl : load opened = Except.error "failed to open mandatory country database" := by
    unfold load
    rw [hfail]
  have hr : reload old opened = old := by
    unfold reload
    rw [hl]
  exact ⟨hl, hr, by rw [hr]⟩

/-- C9: in strict mode the X-Forwarded-For header never influences the
output: two requests identical except for that header yield the same client
IP and identical variable records and query logs. -/
theorem c9_strict_ignores_xff (state : Option GeoIP2State) (r₁ r₂ : Request)
    (hra : r₁.remoteAddr = r₂.remoteAddr) (htp : r₁.trustedProxy = r₂.trustedProxy) :
    getClientIP "strict" r₁ = getClientIP "strict" r₂
    ∧ serveHTTP state "strict" r₁ = serveHTTP state "strict" r₂ := by
  have key : ∀ rq : Request, getClientIP "strict" rq =
      (match splitHostPort rq.remoteAddr with
       | HostPortResult.ok host => parseIP host
       | HostPortResult.missingPort => parseIP rq.remoteAddr
       | HostPortResult.otherErr => none) := by
    intro rq
    have hcond : ¬(((getSafetyLevel "strict" = IpSafeLevel.TrustedProxies
            ∧ rq.trustedProxy = true)
          ∨ getSafetyLevel "strict" = IpSafeLevel.Wild) ∧ rq.xForwardedFor ≠ "") := by
      intro h
      rcases h.1 with ⟨h1, h2⟩ | h1 <;> exact absurd h1 (by decide)
    simp only [getClientIP]
    rw [if_neg hcond]
    cases hsp : splitHostPort rq.remoteAddr <;> simp [hsp]
  have hgc : getClientIP "strict" r₁ = getClientIP "strict" r₂ := by
    rw [key r₁, key r₂, hra]
  refine ⟨hgc, ?_⟩
  have hperf : ∀ (st : GeoIP2State) (vars : Vars),
      performLookup (some st) "strict" r₁ vars = performLookup (some st) "strict" r₂ vars := by
    intro st vars
    unfold performLookup
    rw [hgc]
  unfold serveHTTP
  cases state with
  | none => rfl
  | some st => rw [hperf]

/-- C10: isEnabled is false exactly for the lowercase strings "off", "false"
and "0", while Validate lowercases first, so "OFF" passes validation as a
disable mode yet ServeHTTP still performs the lookup and queries the bound
Country slot. -/
theorem c10_disable_case_sensitivity :
    (∀ e : String, isEnabled e = false ↔ (e = "off" ∨ e = "false" ∨ e = "0"))
    ∧ validate "OFF" = true
    ∧ lowerString "OFF" = "off"
    ∧ isEnabled "OFF" = true
    ∧ (∀ (state : Option GeoIP2State) (r : Request),
        serveHTTP state "OFF" r = performLookup state "OFF" r initialVars)
    ∧ (∀ (st : GeoIP2State) (r : Request) (ip : String),
        getClientIP "OFF" r = some ip →
        (serveHTTP (some st) "OFF" r).2.country = st.countryDBHandler.isSome) := by
  refine ⟨?_, by decide, by decide, by decide, fun state r => rfl, ?_⟩
  · intro e
    constructor
    · intro h
      by_cases h1 : e = "off"
      · exact Or.inl h1
      by_cases h2 : e = "false"
      · exact Or.inr (Or.inl h2)
      by_cases h3 : e = "0"
      · exact Or.inr (Or.inr h3)
      exfalso
      simp [isEnabled, h1, h2, h3] at h
    · rintro (rfl | rfl | rfl) <;> rfl
  · intro st r ip hip
    show (performLookup (some st) "OFF" r initialVars).2.country = _
    rw [performLookup_eq_core st "OFF" r initialVars ip hip]
    exact countryLookup_queried st ip

theorem c1_witness :
    getClientIP "strict" ⟨"1.2.3.4:80", "", false⟩ = some "1.2.3.4"
    ∧ (performLookup (some ⟨some [("1.2.3.4", ⟨"DE", true, false⟩)], some [], none, none⟩)
        "strict" ⟨"1.2.3.4:80", "", false⟩ initialVars).2.regionCity
      = ((countryLookup ⟨some [("1.2.3.4", ⟨"DE", true, false⟩)], some [], none, none⟩
            "1.2.3.4").isInEU
          && (⟨some [("1.2.3.4", ⟨"DE", true, false⟩)], some [], none, none⟩
                : GeoIP2State).cityDBHandler.isSome) :=
  ⟨by decide,
   (c1_city_slot_routing ⟨some [("1.2.3.4", ⟨"DE", true, false⟩)], some [], none, none⟩
      "strict" ⟨"1.2.3.4:80", "", false⟩ initialVars "1.2.3.4" (by decide)).1⟩

theorem c2_witness :
    getClientIP "strict" ⟨"1.2.3.4:80", "", false⟩ = some "1.2.3.4"
    ∧ (performLookup (some ⟨some [("1.2.3.4", ⟨"DE", true, false⟩)], none, none, none⟩)
        "strict" ⟨"1.2.3.4:80", "", false⟩ initialVars).1.isInEU
      = Value.bool ((true : Bool) || false) :=
  ⟨by decide,
   (c2_eu_flag_disjunction ⟨some [("1.2.3.4", ⟨"DE", true, false⟩)], none, none, none⟩
      "strict" ⟨"1.2.3.4:80", "", false⟩ initialVars "1.2.3.4"
      [("1.2.3.4", ⟨"DE", true, false⟩)] ⟨"DE", true, false⟩
      (by decide) rfl (by decide)).1⟩

theorem c3_witness :
    selectCityName [("de", "München"), ("en", "Munich")] = "München"
    ∧ selectCityName [("en", "Munich")] = "Munich"
    ∧ selectCityName [("fr", "Munich")] = "Munich"
    ∧ selectCityName ([] : List (String × String)) = "" :=
  ⟨((c3_city_name_preference [("de", "München"), ("en", "Munich")]).1 (by decide)).trans
      (by decide),
   ((c3_city_name_preference [("en", "Munich")]).2.1 (by decide) (by decide)).trans (by decide),
   ((c3_city_name_preference [("fr", "Munich")]).2.2.1 (by decide) (by decide)).trans
      (by decide),
   (c3_city_name_preference []).2.2.2.1 (by simp)⟩

theorem c4_witness :
    getClientIP "strict" ⟨"", "", false⟩ = none
    ∧ serveHTTP (some ⟨none, none, none, none⟩) "strict" ⟨"", "", false⟩
      = (initialVars, noQueries) :=
  ⟨by decide,
   (c4_malformed_address ⟨none, none, none, none⟩ "strict" ⟨"", "", false⟩ initialVars
      (by decide)).2⟩

theorem c5_witness :
    List.lookup "1.2.3.4" ([] : List (String × CountryRecord)) = none
    ∧ (performLookup (some ⟨some [], none, none, none⟩) "strict"
        ⟨"1.2.3.4:80", "", false⟩ initialVars).1.isInEU = Value.bool false :=
  ⟨by decide,
   (c5_absence_representation ⟨some [], none, none, none⟩ "strict"
      ⟨"1.2.3.4:80", "", false⟩ initialVars "1.2.3.4" [] (by decide) rfl (by decide)).1⟩

theorem c6_witness :
    getClientIP "strict" ⟨"1.2.3.4:80", "", false⟩ = some "1.2.3.4"
    ∧ (performLookup (some ⟨none, none, none, some []⟩) "strict"
        ⟨"1.2.3.4:80", "", false⟩ initialVars).2.asn
      = (⟨none, none, none, some []⟩ : GeoIP2State).asnDBHandler.isSome :=
  ⟨by decide,
   (c6_asn_unconditional ⟨none, none, none, some []⟩ ⟨none, none, none, none⟩
      ⟨none, none, none, none⟩ "strict" ⟨"1.2.3.4:80", "", false⟩ initialVars "1.2.3.4"
      (by decide)).1⟩

theorem c7_witness :
    (extractCityFields ⟨[], 0, 0, [⟨"BY"⟩, ⟨"XX"⟩]⟩).subdivision = "BY" :=
  ((c7_first_subdivision ⟨[], 0, 0, [⟨"BY"⟩, ⟨"XX"⟩]⟩).2.1 ⟨"BY"⟩ [⟨"XX"⟩] rfl).trans
    (by decide)

theorem c8_witness :
    (⟨none, some ⟨"q", "city", 2⟩, none, none⟩ : OpenResults).country = none
    ∧ reload ⟨some ⟨"p", "country", 1⟩, none, none, none⟩
        ⟨none, some ⟨"q", "city", 2⟩, none, none⟩
      = ⟨some ⟨"p", "country", 1⟩, none, none, none⟩ :=
  ⟨rfl,
   (c8_failed_reload_unchanged ⟨some ⟨"p", "country", 1⟩, none, none, none⟩
      ⟨none, some ⟨"q", "city", 2⟩, none, none⟩ rfl).2.1⟩

theorem c9_witness :
    (⟨"1.2.3.4:80", "", false⟩ : Request).remoteAddr
      = (⟨"1.2.3.4:80", "9.9.9.9", false⟩ : Request).remoteAddr
    ∧ getClientIP "strict" ⟨"1.2.3.4:80", "", false⟩
      = getClientIP "strict" ⟨"1.2.3.4:80", "9.9.9.9", false⟩ :=
  ⟨rfl,
   (c9_strict_ignores_xff none ⟨"1.2.3.4:80", "", false⟩ ⟨"1.2.3.4:80", "9.9.9.9", false⟩
      rfl rfl).1⟩

theorem c10_witness :
    isEnabled "off" = false ∧ validate "OFF" = true ∧ isEnabled "OFF" = true :=
  ⟨(c10_disable_case_sensitivity.1 "off").mpr (Or.inl rfl),
   c10_disable_case_sensitivity.2.1,
   c10_disable_case_sensitivity.2.2.2.1⟩

end CaddyGeoip2
